import Mathlib

/-!
Verification of the dworshak-secret vault core (package `dworshak_secret`).

The Python source is shallowly embedded: the filesystem is an explicit
`World` state (directories, sqlite database files, key files, backup
copies, permission modes), threaded through every operation exactly as the
source performs its I/O.  Fernet encryption is modelled symbolically: a
token records the key that produced it and the plaintext; decryption
succeeds exactly when the key matches (MultiFernet tries its keys in
order).  Python exceptions are modelled with `Except PyErr`; a Python call
that passes a keyword argument the callee does not accept, or more
positional arguments than the callee declares, is a `TypeError` raised at
the call site, and is embedded as such.
-/

namespace Dworshak

/-- A filesystem path, as its list of components from the root. -/
abbrev VPath := List String

/-- `paths.APP_DIR = Path.home() / ".dworshak"`. -/
def APP_DIR : VPath := ["home", ".dworshak"]

/-- `paths.DB_FILE = APP_DIR / "vault.db"`. -/
def DB_FILE : VPath := APP_DIR ++ ["vault.db"]

/-- `paths.KEY_FILE = APP_DIR / ".key"`. -/
def KEY_FILE : VPath := APP_DIR ++ [".key"]

/-- `Path.parent`: drop the last component. -/
def VPath.parent (p : VPath) : VPath := p.dropLast

/-- `parent / name`: append one component. -/
def VPath.child (p : VPath) (s : String) : VPath := p ++ [s]

/-- `paths.get_key_path_for_db`: the default key file for the default
database, else the `.key` file co-located with the given database. -/
def get_key_path_for_db (db_path : Option VPath) : VPath :=
  let db_p := db_path.getD DB_FILE
  if db_p = DB_FILE then KEY_FILE else db_p.parent.child ".key"

/-- A Fernet key (the raw bytes of the key file), modelled atomically. -/
abbrev Key := Nat

/-- A Fernet token: records which key encrypted it and the plaintext.
Decryption succeeds exactly when the key matches. -/
structure Token where
  key : Key
  plain : String
deriving DecidableEq, Repr

/-- A cipher object: `Fernet(key)` or `MultiFernet([k1, k2, ...])`. -/
inductive Fernet where
  | single (k : Key)
  | multi (ks : List Key)
deriving DecidableEq, Repr

/-- `encrypt`: a single-key Fernet encrypts with its key; a MultiFernet
encrypts with its first key. -/
def Fernet.encrypt : Fernet → String → Token
  | .single k, s => ⟨k, s⟩
  | .multi (k :: _), s => ⟨k, s⟩
  | .multi [], s => ⟨0, s⟩

/-- `decrypt`: succeeds iff some held key verifies the token
(`none` models an `InvalidToken` failure). -/
def Fernet.decrypt : Fernet → Token → Option String
  | .single k, t => if t.key = k then some t.plain else none
  | .multi ks, t => if t.key ∈ ks then some t.plain else none

/-- Contents of one sqlite database file: the persisted
`PRAGMA user_version`, whether the `credentials` table exists, its rows
`(service, item, encrypted_secret)`, and whether
`PRAGMA integrity_check` reports "ok". -/
structure DBFile where
  userVersion : Nat
  hasCredTable : Bool
  credentials : List (String × String × Token)
  integrity_ok : Bool
deriving DecidableEq, Repr

/-- A freshly created sqlite database: version 0, no tables, clean. -/
def emptyDb : DBFile := ⟨0, false, [], true⟩

/-- Python exceptions that the embedded code can raise. -/
inductive PyErr where
  | typeError (msg : String)
  | nameError (msg : String)
  | fileNotFound (msg : String)
  | keyError (msg : String)
  | runtimeError (msg : String)
  | operationalError
  | invalidToken
deriving DecidableEq, Repr

/-- `str(exc)` as interpolated into failure messages. -/
def PyErr.describe : PyErr → String
  | .typeError m => m
  | .nameError m => m
  | .fileNotFound m => m
  | .keyError m => m
  | .runtimeError m => m
  | .operationalError => "no such table: credentials"
  | .invalidToken => "InvalidToken"

/-- The filesystem and environment state threaded through the code. -/
structure World where
  /-- Existing directories. -/
  dirs : List VPath
  /-- sqlite database files, by path. -/
  dbs : List (VPath × DBFile)
  /-- key files (raw key bytes), by path. -/
  keyFiles : List (VPath × Key)
  /-- backup copies of database files, by path. -/
  backups : List (VPath × DBFile)
  /-- permission bits (`stat.S_IMODE`) of files; 384 is 0o600. -/
  modes : List (VPath × Nat)
  /-- whether the `cryptography` package imports (`CRYPTO_AVAILABLE`). -/
  cryptoAvailable : Bool
  /-- whether the platform is POSIX (`os.name != "nt"`). -/
  posix : Bool
  /-- entropy source: the next fresh key `Fernet.generate_key` yields. -/
  rng : Nat
  /-- the current clock reading used for timestamps. -/
  now : Nat
  /-- whether a `shutil.copy2` issued now succeeds (disk I/O oracle). -/
  copyOk : Bool
deriving DecidableEq, Repr

/-- Association-list lookup by path. -/
def lookupA {α : Type} : List (VPath × α) → VPath → Option α
  | [], _ => none
  | (q, a) :: rest, p => if q = p then some a else lookupA rest p

/-- Association-list update (replace or append). -/
def updateA {α : Type} : List (VPath × α) → VPath → α → List (VPath × α)
  | [], p, a => [(p, a)]
  | (q, b) :: rest, p, a =>
      if q = p then (p, a) :: rest else (q, b) :: updateA rest p a

/-- `path.exists()` for files: present in any of the file stores. -/
def fileExists (w : World) (p : VPath) : Bool :=
  (lookupA w.dbs p).isSome || (lookupA w.keyFiles p).isSome ||
    (lookupA w.backups p).isSome

/-- `mkdir(parents=True, exist_ok=True)`, idempotently. -/
def addDir (w : World) (p : VPath) : World :=
  if p ∈ w.dirs then w else { w with dirs := p :: w.dirs }

/-- Replace the database file stored at `p`. -/
def setDb (w : World) (p : VPath) (d : DBFile) : World :=
  { w with dbs := updateA w.dbs p d }

/-- `sqlite3.connect(p)`: opens the database, creating a fresh empty one
when no file exists at `p`. -/
def sqlite_connect (w : World) (p : VPath) : DBFile × World :=
  match lookupA w.dbs p with
  | some d => (d, w)
  | none => (emptyDb, setDb w p emptyDb)

/-- `key.installation_check` with `die=False`: reports `CRYPTO_AVAILABLE`. -/
def installation_check (w : World) : Bool := w.cryptoAvailable

/-- `paths.ensure_secure_permissions`: chmod the file to 0o600; a no-op
(reported as success) on Windows or for a missing file. -/
def ensure_secure_permissions (w : World) (p : VPath) : Bool × World :=
  if !w.posix || !fileExists w p then (true, w)
  else (true, { w with modes := updateA w.modes p 384 })

/-- `secure_chmod(path)`: chmod to 0o600 unless on Windows.  The function
is defined in the sibling package `dworshak_access.paths` (the
`dworshak_secret.paths` module omits it although `vault.py` and
`actions.py` import it from there); its body is embedded here. -/
def secure_chmod (w : World) (p : VPath) : World :=
  if w.posix then { w with modes := updateA w.modes p 384 } else w

/-- `vault._get_rw_mode`: `stat.S_IMODE` of the file, `none` for `None`
or when `stat` fails (missing file). -/
def _get_rw_mode (w : World) (p : Option VPath) : Option Nat :=
  match p with
  | none => none
  | some q => lookupA w.modes q

/-- `vault._is_600`: the mode equals 0o600 exactly. -/
def _is_600 (w : World) (p : VPath) : Bool :=
  _get_rw_mode w (some p) = some 384

/-- `paths.get_vault_backup_filename`: fixed base, optional UTC
timestamp, optional suffix stripped of leading/trailing `"_ -"`. -/
def get_vault_backup_filename (w : World) (extra_suffix : String)
    (include_timestamp : Bool) : String :=
  let strip := fun (c : Char) => c == '_' || c == ' ' || c == '-'
  let cleaned :=
    String.mk (((extra_suffix.toList.dropWhile strip).reverse.dropWhile
      strip).reverse)
  let parts := ["vault.db.bak"]
    ++ (if include_timestamp then [toString w.now] else [])
    ++ (if extra_suffix ≠ "" ∧ cleaned ≠ "" then [cleaned] else [])
  String.intercalate "_" parts ++ ".db"

/-- `paths.get_backup_path`: destination directory (created as needed;
`APP_DIR` by default) joined with the generated filename. -/
def get_backup_path (w : World) (extra_suffix : String)
    (dest_dir : Option VPath) (include_timestamp : Bool) : VPath × World :=
  let parent := dest_dir.getD APP_DIR
  let w₁ := addDir w parent
  (parent.child (get_vault_backup_filename w extra_suffix include_timestamp),
    w₁)

/-- `security.get_fernet(db_path=None)`: resolves the key file paired with
`db_path`; when that key file is missing, auto-generates and persists a
key only for the default vault (creating the directory and securing the
permissions), and returns `none` for non-default vaults.  Returns `none`
when the cryptography package is unavailable or the key cannot be read. -/
def get_fernet (w : World) (db_path : Option VPath) : Option Fernet × World :=
  if !installation_check w then (none, w)
  else
    let db_p := db_path.getD DB_FILE
    let final_key_path := get_key_path_for_db (some db_p)
    if !fileExists w final_key_path then
      if db_p = DB_FILE then
        let key := w.rng
        let w₁ := { w with
          rng := w.rng + 1,
          dirs := (addDir w final_key_path.parent).dirs,
          keyFiles := updateA w.keyFiles final_key_path key }
        let w₂ := (ensure_secure_permissions w₁ final_key_path).2
        (some (.single key), w₂)
      else (none, w)
    else
      match lookupA w.keyFiles final_key_path with
      | some k => (some (.single k), w)
      | none => (none, w)

/-- `vault.CURRENT_TOOL_SCHEMA_VERSION`. -/
def CURRENT_TOOL_SCHEMA_VERSION : Nat := 2

/-- `vault.VaultCode` (an `IntEnum`; the numeric values are unused by the
claims, so the constructors mirror the declaration order). -/
inductive VaultCode where
  | DIR_MISSING
  | DB_MISSING
  | KEY_MISSING
  | HEALTHY_WITH_RW_WARNINGS
  | HEALTHY
  | DB_CORRUPTED
deriving DecidableEq, Repr

/-- `vault.VaultStatus` named tuple. -/
structure VaultStatus where
  is_valid : Bool
  message : String
  root_path : VPath
  rw_code : Option Nat
  health_code : VaultCode
  vault_db_version : Nat
deriving DecidableEq, Repr

/-- `vault.VaultResponse` dataclass. -/
structure VaultResponse where
  success : Bool
  message : String
  is_new : Bool
deriving DecidableEq, Repr

/-- `vault.is_db_corrupted(db_file=DB_FILE)`: the body connects to the
module constant `DB_FILE`, ignoring the `db_file` argument, and runs
`PRAGMA integrity_check` on it.  Connecting creates an empty (clean)
database file when `DB_FILE` is absent. -/
def is_db_corrupted (w : World) (db_file : VPath) : Bool × World :=
  let _ := db_file
  let conn := sqlite_connect w DB_FILE
  (!conn.1.integrity_ok, conn.2)

/-- `vault.check_vault(db_path)`: the health cascade, in source order:
directory, database file at `db_path`, integrity scan, default key file,
cipher availability, then permission warnings. -/
def check_vault (w : World) (db_path : Option VPath) : VaultStatus × World :=
  let db_p := db_path.getD DB_FILE
  if APP_DIR ∉ w.dirs then
    (⟨false, "Vault directory missing", APP_DIR, _get_rw_mode w none,
      .DIR_MISSING, CURRENT_TOOL_SCHEMA_VERSION⟩, w)
  else if !fileExists w db_p then
    (⟨false, "Vault DB missing", APP_DIR, _get_rw_mode w none,
      .DB_MISSING, CURRENT_TOOL_SCHEMA_VERSION⟩, w)
  else
    let corr := is_db_corrupted w db_p
    let w₁ := corr.2
    if corr.1 then
      (⟨false, "Vault DB corrupted", APP_DIR, _get_rw_mode w₁ (some db_p),
        .DB_CORRUPTED, CURRENT_TOOL_SCHEMA_VERSION⟩, w₁)
    else
      if !fileExists w₁ KEY_FILE then
        (⟨true, "Encryption key file missing", APP_DIR,
          _get_rw_mode w₁ (some db_p), .KEY_MISSING,
          CURRENT_TOOL_SCHEMA_VERSION⟩, w₁)
      else
        let gf := get_fernet w₁ none
        let w₂ := gf.2
        if gf.1.isNone then
          (⟨true, "Cryptography library not available", APP_DIR,
            _get_rw_mode w₂ (some db_p), .KEY_MISSING,
            CURRENT_TOOL_SCHEMA_VERSION⟩, w₂)
        else
          let warnings :=
            (if w₂.posix ∧ !_is_600 w₂ db_p then
              ["vault.db permissions are not 600"] else [])
            ++ (if w₂.posix ∧ !_is_600 w₂ KEY_FILE then
              [".key permissions are not 600"] else [])
          if warnings ≠ [] then
            (⟨true, "Vault healthy (warnings: "
                ++ String.intercalate "; " warnings ++ ")", APP_DIR,
              _get_rw_mode w₂ (some db_p), .HEALTHY_WITH_RW_WARNINGS,
              CURRENT_TOOL_SCHEMA_VERSION⟩, w₂)
          else
            (⟨true, "Vault healthy", APP_DIR, _get_rw_mode w₂ (some db_p),
              .HEALTHY, CURRENT_TOOL_SCHEMA_VERSION⟩, w₂)

/-- `vault._dont_run_migrations`: declared with zero parameters; it only
prints a notice.  (`initialize_vault` nevertheless calls it with one
positional argument.) -/
def _dont_run_migrations : Unit := ()

/-- `vault.initialize_vault()`: creates `APP_DIR`, provisions the default
key via `get_fernet()`, opens `DB_FILE` and reads `PRAGMA user_version`.
Version 0 gets the base schema and the current version stamp; a persisted
version strictly between 0 and the tool version takes the migration
branch, whose first statement `_dont_run_migrations(existing_version)`
passes one positional argument to a zero-parameter function — Python
raises `TypeError` there, before the failure `VaultResponse` on the next
line can be built. -/
def initialize_vault (w : World) : Except PyErr VaultResponse × World :=
  let w₁ := addDir w APP_DIR
  let w₂ := (get_fernet w₁ none).2
  let conn := sqlite_connect w₂ DB_FILE
  let dbf := conn.1
  let w₃ := conn.2
  if dbf.userVersion = 0 then
    let dbf₁ := { dbf with hasCredTable := true,
                           userVersion := CURRENT_TOOL_SCHEMA_VERSION }
    (.ok ⟨true, "New vault initialized.", true⟩, setDb w₃ DB_FILE dbf₁)
  else if dbf.userVersion < CURRENT_TOOL_SCHEMA_VERSION then
    (.error (.typeError
      "_dont_run_migrations() takes 0 positional arguments but 1 was given"),
      w₃)
  else
    (.ok ⟨true, "Existing vault verified and ready.", false⟩, w₃)

/-- `vault.backup_vault(db_path, extra_suffix="", include_timestamp=True,
dest_dir=None)`: copies the resolved database file to the generated
backup path and secures the copy; `none` when the source file is missing
or the copy raises.  Note that `db_path` is a required positional
parameter — it is annotated `Path | str | None` but declared with no
default value, so every caller must pass it explicitly (the body then
maps `None` to `DB_FILE`). -/
def backup_vault (w : World) (db_path : Option VPath) (extra_suffix : String)
    (include_timestamp : Bool) (dest_dir : Option VPath) :
    Option VPath × World :=
  let db_p := db_path.getD DB_FILE
  if !fileExists w db_p then (none, w)
  else
    let gbp := get_backup_path w extra_suffix dest_dir include_timestamp
    let backup_path := gbp.1
    let w₁ := gbp.2
    if w₁.copyOk then
      match lookupA w₁.dbs db_p with
      | some d =>
        let w₂ := { w₁ with backups := updateA w₁.backups backup_path d }
        (some backup_path, secure_chmod w₂ backup_path)
      | none => (none, w₁)
    else (none, w₁)

/-- First row of
`SELECT encrypted_secret FROM credentials WHERE service=? AND item=?`. -/
def findCred : List (String × String × Token) → String → String →
    Option Token
  | [], _, _ => none
  | (s, i, t) :: rest, service, item =>
    if s = service ∧ i = item then some t else findCred rest service item

/-- `INSERT OR REPLACE` on the composite primary key `(service, item)`. -/
def upsertCred (creds : List (String × String × Token)) (service item : String)
    (t : Token) : List (String × String × Token) :=
  creds.filter (fun c => !(c.1 == service && c.2.1 == item))
    ++ [(service, item, t)]

namespace DworshakSecret

/-- `DworshakSecret._get_fernet`: resolves a co-located key path for
custom vaults, then calls `security.get_fernet(key_path=key_file)`.
`get_fernet`'s only parameter is named `db_path`, so Python raises
`TypeError` at this call, for every vault path and every world. -/
def _get_fernet (w : World) (db_path : VPath) : Except PyErr (Option Fernet) × World :=
  let _ := db_path
  (.error (.typeError
    "get_fernet() got an unexpected keyword argument key_path"), w)

/-- The body of `DworshakSecret.set` after the cipher has been resolved:
encrypt, connect, `INSERT OR REPLACE`, commit.  The insert raises
`sqlite3.OperationalError` when the `credentials` table does not exist. -/
def setWithFernet (w : World) (db_path : VPath) (service item value : String)
    (f : Fernet) : Except PyErr Unit × World :=
  let tok := f.encrypt value
  let conn := sqlite_connect w db_path
  let dbf := conn.1
  let w₁ := conn.2
  if !dbf.hasCredTable then (.error .operationalError, w₁)
  else
    (.ok (), setDb w₁ db_path
      { dbf with credentials := upsertCred dbf.credentials service item tok })

/-- `DworshakSecret.set(service, item, value, fernet=None)`: resolves
`fernet or self._get_fernet()` first (so a `None` cipher argument hits
`_get_fernet`'s `TypeError` before any database access), then encrypts
and upserts. -/
def set (w : World) (db_path : VPath) (service item value : String)
    (fernet : Option Fernet) : Except PyErr Unit × World :=
  match fernet with
  | some f => setWithFernet w db_path service item value f
  | none =>
    let gf := _get_fernet w db_path
    match gf.1 with
    | .error e => (.error e, gf.2)
    | .ok none =>
      (.error (.runtimeError
        "Cryptography unavailable or Key missing. Cannot encrypt."), gf.2)
    | .ok (some f) => setWithFernet gf.2 db_path service item value f

/-- `DworshakSecret.get(service, item, fail=False, fernet=None)`: health
gate, row lookup, then cipher resolution and decryption — in that source
order, so a missing row returns the `None` sentinel before the cipher is
ever resolved, while a present row with no explicit cipher reaches
`_get_fernet`'s `TypeError`. -/
def get (w : World) (db_path : VPath) (service item : String) (fail : Bool)
    (fernet : Option Fernet) : Except PyErr (Option String) × World :=
  let cv := check_vault w (some db_path)
  let status := cv.1
  let w₁ := cv.2
  if !status.is_valid then
    if fail then
      (.error (.fileNotFound ("Vault error: " ++ status.message)), w₁)
    else (.ok none, w₁)
  else
    let conn := sqlite_connect w₁ db_path
    let dbf := conn.1
    let w₂ := conn.2
    if !dbf.hasCredTable then (.error .operationalError, w₂)
    else
      match findCred dbf.credentials service item with
      | none =>
        if fail then
          (.error (.keyError
            ("No credential found for " ++ service ++ "/" ++ item)), w₂)
        else (.ok none, w₂)
      | some tok =>
        match fernet with
        | some f =>
          match f.decrypt tok with
          | some plain => (.ok (some plain), w₂)
          | none => (.error .invalidToken, w₂)
        | none =>
          let gf := _get_fernet w₂ db_path
          match gf.1 with
          | .error e => (.error e, gf.2)
          | .ok none =>
            (.error (.runtimeError
              "Cryptography unavailable or Key file missing. Cannot process secret."),
              gf.2)
          | .ok (some f) =>
            match f.decrypt tok with
            | some plain => (.ok (some plain), gf.2)
            | none => (.error .invalidToken, gf.2)

/-- `DworshakSecret.list()`: all `(service, item)` pairs; a missing
`credentials` table is caught (`OperationalError`) and yields `[]`. -/
def list (w : World) (db_path : VPath) : List (String × String) × World :=
  let conn := sqlite_connect w db_path
  if conn.1.hasCredTable then
    (conn.1.credentials.map (fun c => (c.1, c.2.1)), conn.2)
  else ([], conn.2)

/-- `DworshakSecret.remove(service, item)`: deletes the matching rows and
reports whether any row was removed. -/
def remove (w : World) (db_path : VPath) (service item : String) :
    Except PyErr Bool × World :=
  let conn := sqlite_connect w db_path
  let dbf := conn.1
  let w₁ := conn.2
  if !dbf.hasCredTable then (.error .operationalError, w₁)
  else
    let deletedRows := dbf.credentials.filter
      (fun c => c.1 == service && c.2.1 == item)
    let kept := dbf.credentials.filter
      (fun c => !(c.1 == service && c.2.1 == item))
    let w₂ := setDb w₁ db_path { dbf with credentials := kept }
    (.ok (deletedRows.length > 0), w₂)

end DworshakSecret

/-- `core.get_secret(service, item, fail=False, db_path=None)`. -/
def get_secret (w : World) (service item : String) (fail : Bool) :
    Except PyErr (Option String) × World :=
  DworshakSecret.get w DB_FILE service item fail none

/-- `core.store_secret(service, item, secret, db_path=None)`.  Note the
signature: there is no `fernet` parameter. -/
def store_secret (w : World) (service item secret : String) :
    Except PyErr Unit × World :=
  DworshakSecret.set w DB_FILE service item secret none

/-- `core.list_credentials(db_path=None)`. -/
def list_credentials (w : World) : List (String × String) × World :=
  DworshakSecret.list w DB_FILE

/-- `key.load_current_key(db_path)`: resolves the key path paired with
the argument via `get_key_path_for_db` and reads it; `FileNotFoundError`
when absent. -/
def load_current_key (w : World) (db_path : Option VPath) : Except PyErr Key :=
  let target := get_key_path_for_db db_path
  match lookupA w.keyFiles target with
  | some k => .ok k
  | none => .error (.fileNotFound "Encryption key not found")

/-- `key.generate_new_key()`: `installation_check()` is called but its
result is discarded (`die=False`), so with the cryptography package
missing the subsequent `Fernet.generate_key()` raises `NameError`; with
it available a fresh key is drawn from the entropy source. -/
def generate_new_key (w : World) : Except PyErr Key × World :=
  let _ := installation_check w
  if !w.cryptoAvailable then
    (.error (.nameError "name Fernet is not defined"), w)
  else (.ok w.rng, { w with rng := w.rng + 1 })

/-- `(success, message, affected_credentials)` as returned by
`key.rotate_key`. -/
abbrev RotateResult := Bool × String × Option (List String)

/-- Outcome of the re-encryption `for` loop inside `rotate_key`'s `try`
block: an explicit early `return`, a raised exception (with the
`affected` list accumulated so far), or normal completion. -/
inductive LoopOut where
  | retEarly (res : RotateResult) (w : World)
  | raised (e : PyErr) (affected : List String) (w : World)
  | done (affected : List String) (w : World)

/-- The re-encryption pass of `rotate_key`: per credential,
`get_secret(service, item)` (no `db_path` and no cipher argument, so it
reads the default vault and, on a present row, raises `TypeError` in
`_get_fernet`); a `None` plaintext returns early; otherwise the key is
recorded as affected and, unless this is a dry run,
`store_secret(service, item, plaintext, fernet=transition_fernet)` is
called — `store_secret` has no `fernet` parameter, so that call raises
`TypeError`. -/
def rotateLoop (dry_run : Bool) :
    World → List (String × String) → List String → LoopOut
  | w, [], affected => .done affected w
  | w, (service, item) :: rest, affected =>
    let gs := get_secret w service item false
    match gs.1 with
    | .error e => .raised e affected gs.2
    | .ok none =>
      .retEarly (false, "Failed to read secret " ++ service ++ "/" ++ item,
        some affected) gs.2
    | .ok (some _) =>
      let affected₁ := affected ++ [service ++ "/" ++ item]
      if dry_run then rotateLoop dry_run gs.2 rest affected₁
      else
        .raised (.typeError
          "store_secret() got an unexpected keyword argument fernet")
          affected₁ gs.2

/-- The tail of `rotate_key` after the re-encryption pass: the dry-run
report, or commit plus atomic key-file replacement and re-securing; the
`except` handlers map `InvalidToken` and other exceptions to failure
results carrying the partial `affected` list. -/
def finishRotation (dry_run : Bool) (key_path : VPath) (new_key : Key)
    (backup_info : String) (out : LoopOut) :
    Except PyErr RotateResult × World :=
  match out with
  | .retEarly res w => (.ok res, w)
  | .raised .invalidToken affected w =>
    (.ok (false, "Decryption failure during rotation: InvalidToken",
      some affected), w)
  | .raised e affected w =>
    (.ok (false, "Rotation failed: " ++ e.describe, some affected), w)
  | .done affected w =>
    if dry_run then
      (.ok (true, "Dry run. A true key rotation would re-encrypt "
        ++ toString affected.length ++ " credential(s). " ++ backup_info,
        some affected), w)
    else
      let w₁ := { w with keyFiles := updateA w.keyFiles key_path new_key }
      let w₂ := (ensure_secure_permissions w₁ key_path).2
      (.ok (true, "Successfully rotated key and re-encrypted "
        ++ toString affected.length ++ " credential(s). " ++ backup_info,
        some affected), w₂)

/-- Steps 3–6 of `key.rotate_key`, after the health gate and the backup
phase: load the old key, generate the new one (building the transition
`MultiFernet([new, old])`), enumerate the DEFAULT vault's credentials
(`list_credentials()` is called with no `db_path`), return success early
when there are none, and otherwise run the re-encryption pass. -/
def rotateFrom (w₂ : World) (key_path : VPath) (dry_run : Bool)
    (backup_info : String) : Except PyErr RotateResult × World :=
  match load_current_key w₂ (some key_path) with
  | .error _ =>
    (.ok (false, "Cannot rotate: Encryption key not found", none), w₂)
  | .ok old_key =>
    let gen := generate_new_key w₂
    match gen.1 with
    | .error e => (.error e, gen.2)
    | .ok new_key =>
      let w₃ := gen.2
      let transition_fernet := Fernet.multi [new_key, old_key]
      let _ := transition_fernet
      let lc := list_credentials w₃
      let credentials := lc.1
      let w₄ := lc.2
      if credentials = [] then
        (.ok (true, "No credentials to rotate. " ++ backup_info,
          some []), w₄)
      else
        finishRotation dry_run key_path new_key backup_info
          (rotateLoop dry_run w₄ credentials [])

/-- `key.rotate_key(db_path=None, dry_run=False, auto_backup=True,
extra_backup_suffix="pre-key-rotation")`: health gate, then the backup
phase, then the key/re-encryption phases of `rotateFrom`.  The backup
phase calls `backup_vault(extra_suffix=extra_backup_suffix,
include_timestamp=True)`, omitting `db_path` — a parameter
`vault.backup_vault` declares with no default — so whenever
`auto_backup` is true Python raises `TypeError` at that call, outside
every `try` block: no file is copied, no abort tuple is returned, and
the exception propagates to the caller. -/
def rotate_key (w : World) (db_path : Option VPath) (dry_run : Bool)
    (auto_backup : Bool) (extra_backup_suffix : String) :
    Except PyErr RotateResult × World :=
  let _ := extra_backup_suffix
  let db_p := db_path.getD DB_FILE
  let key_path := get_key_path_for_db (some db_p)
  let _ := installation_check w
  let cv := check_vault w (some db_p)
  let status := cv.1
  let w₁ := cv.2
  if !status.is_valid then
    (.ok (false, "Vault is unhealthy: " ++ status.message, none), w₁)
  else if auto_backup then
    (.error (.typeError
      "backup_vault() missing 1 required positional argument: db_path"),
      w₁)
  else
    rotateFrom w₁ key_path dry_run "No backup performed"

/-- One row of the `credentials` table inside a parsed export document;
`none` models an absent JSON key (`row.get(...)` returning `None`). -/
structure CredRow where
  service : Option String
  item : Option String
  encrypted_secret : Option String
deriving DecidableEq, Repr

/-- The `metadata` object of a parsed export document; `decrypted` is
`none` when the key is absent. -/
structure ExportMeta where
  decrypted : Option Bool
deriving DecidableEq, Repr

/-- A parsed export document:
`data.get("metadata", {})` and `data.get("tables", {}).get("credentials", [])`. -/
structure ExportDoc where
  metadata : ExportMeta
  credentials : List CredRow
deriving DecidableEq, Repr

/-- Python truthiness of `meta.get("decrypted")`: absent and `False` are
falsy. -/
def pyTruthy : Option Bool → Bool
  | none => false
  | some b => b

/-- Python truthiness of `row.get(...)` for string fields: absent and
the empty string are falsy. -/
def pyTruthyStr : Option String → Bool
  | none => false
  | some s => !s.isEmpty

/-- `actions._validate_import_meta`: accepts only a truthy
`decrypted` flag. -/
def _validate_import_meta (meta : ExportMeta) : Bool :=
  pyTruthy meta.decrypted

/-- `actions._get_overlap`: incoming `(service, item)` keys (rows where
both keys are present) that already exist in the vault. -/
def _get_overlap (incoming : List CredRow)
    (existing : List (String × String)) : List (String × String) :=
  (incoming.filterMap fun r =>
    match r.service, r.item with
    | some s, some i => some (s, i)
    | _, _ => none).filter (fun k => decide (k ∈ existing))

/-- `actions._trigger_safety_backup`: `shutil.copy2` of the database to a
timestamped sibling path (the source builds it with
`db_path.with_suffix`); raises when the source file is missing. -/
def _trigger_safety_backup (w : World) (db_p : VPath) :
    Except PyErr VPath × World :=
  match lookupA w.dbs db_p with
  | none => (.error (.fileNotFound "safety backup source missing"), w)
  | some d =>
    let bp := db_p.parent.child ("vault.db.bak_" ++ toString w.now)
    (.ok bp, { w with backups := updateA w.backups bp d })

/-- Counters returned by `import_records`. -/
structure ImportStats where
  added : Nat
  updated : Nat
  skipped : Nat
deriving DecidableEq, Repr

/-- The per-row loop of `actions.import_records`: rows missing (or with
falsy) `service`, `item` or `encrypted_secret` are silently skipped;
otherwise the row is added, updated (when overwriting) or counted as
skipped — via `DworshakSecret.get`/`set` with no cipher argument, whose
exceptions propagate. -/
def importLoop (db_p : VPath) (overwrite : Bool) :
    World → List CredRow → ImportStats → Except PyErr ImportStats × World
  | w, [], stats => (.ok stats, w)
  | w, row :: rest, stats =>
    if !(pyTruthyStr row.service && pyTruthyStr row.item &&
        pyTruthyStr row.encrypted_secret) then
      importLoop db_p overwrite w rest stats
    else
      let service := row.service.getD ""
      let item := row.item.getD ""
      let secret := row.encrypted_secret.getD ""
      let g := DworshakSecret.get w db_p service item false none
      match g.1 with
      | .error e => (.error e, g.2)
      | .ok none =>
        let s := DworshakSecret.set g.2 db_p service item secret none
        match s.1 with
        | .error e => (.error e, s.2)
        | .ok _ =>
          importLoop db_p overwrite s.2 rest
            { stats with added := stats.added + 1 }
      | .ok (some _) =>
        if overwrite then
          let s := DworshakSecret.set g.2 db_p service item secret none
          match s.1 with
          | .error e => (.error e, s.2)
          | .ok _ =>
            importLoop db_p overwrite s.2 rest
              { stats with updated := stats.updated + 1 }
        else
          importLoop db_p overwrite g.2 rest
            { stats with skipped := stats.skipped + 1 }

/-- `actions.import_records(json_path, db_path=None, overwrite=False)`,
on the already-parsed document: metadata validation first (returning
`None` with no state change on rejection), then overlap detection, the
conditional safety backup, and the merge loop. -/
def import_records (w : World) (doc : ExportDoc) (db_path : Option VPath)
    (overwrite : Bool) : Except PyErr (Option ImportStats) × World :=
  let db_p := db_path.getD DB_FILE
  if !_validate_import_meta doc.metadata then (.ok none, w)
  else
    let ls := DworshakSecret.list w db_p
    let overlap := _get_overlap doc.credentials ls.1
    let backupStep : Except PyErr Unit × World :=
      if overlap ≠ [] ∧ overwrite then
        let tb := _trigger_safety_backup ls.2 db_p
        match tb.1 with
        | .error e => (.error e, tb.2)
        | .ok _ => (.ok (), tb.2)
      else (.ok (), ls.2)
    match backupStep.1 with
    | .error e => (.error e, backupStep.2)
    | .ok _ =>
      let il := importLoop db_p overwrite backupStep.2 doc.credentials
        ⟨0, 0, 0⟩
      match il.1 with
      | .error e => (.error e, il.2)
      | .ok stats => (.ok (some stats), il.2)

/-! ### Basic lemmas about the state primitives -/

theorem lookupA_updateA_self {α : Type} (xs : List (VPath × α)) (p : VPath)
    (a : α) : lookupA (updateA xs p a) p = some a := by
  induction xs with
  | nil => simp [updateA, lookupA]
  | cons hd tl ih =>
    obtain ⟨q, b⟩ := hd
    by_cases h : q = p
    · simp [updateA, h, lookupA]
    · simp [updateA, h, lookupA, ih]

theorem lookupA_updateA_ne {α : Type} (xs : List (VPath × α)) (p q : VPath)
    (a : α) (h : q ≠ p) : lookupA (updateA xs q a) p = lookupA xs p := by
  induction xs with
  | nil => simp [updateA, lookupA, h]
  | cons hd tl ih =>
    obtain ⟨r, b⟩ := hd
    by_cases hr : r = q
    · simp [updateA, hr, lookupA, h]
    · by_cases hp : r = p
      · subst hp
        simp [updateA, lookupA, hr]
      · simp [updateA, hr, lookupA, hp, ih]

theorem sqlite_connect_of_some (w : World) (p : VPath) (d : DBFile)
    (hd : lookupA w.dbs p = some d) : sqlite_connect w p = (d, w) := by
  simp [sqlite_connect, hd]

theorem sqlite_connect_backups (w : World) (p : VPath) :
    ((sqlite_connect w p).2).backups = w.backups := by
  cases h : lookupA w.dbs p <;> simp [sqlite_connect, h, setDb]

theorem sqlite_connect_keyFiles (w : World) (p : VPath) :
    ((sqlite_connect w p).2).keyFiles = w.keyFiles := by
  cases h : lookupA w.dbs p <;> simp [sqlite_connect, h, setDb]

theorem get_key_path_default : get_key_path_for_db (some DB_FILE) = KEY_FILE := by
  simp [get_key_path_for_db]

theorem get_key_path_none : get_key_path_for_db none = KEY_FILE := by
  simp [get_key_path_for_db, Option.getD]

theorem fileExists_of_db (w : World) (p : VPath) (d : DBFile)
    (hd : lookupA w.dbs p = some d) : fileExists w p = true := by
  simp [fileExists, hd]

theorem fileExists_of_key (w : World) (p : VPath) (k : Key)
    (hk : lookupA w.keyFiles p = some k) : fileExists w p = true := by
  simp [fileExists, hk]

theorem is_db_corrupted_eq (w : World) (q : VPath) (d : DBFile)
    (hd : lookupA w.dbs DB_FILE = some d) :
    is_db_corrupted w q = (!d.integrity_ok, w) := by
  simp [is_db_corrupted, sqlite_connect, hd]

/-- When the default key file is on disk, `get_fernet()` for the default
vault reads it (or reports the cipher unavailable) without touching the
world. -/
theorem get_fernet_stable (w : World) (h : fileExists w KEY_FILE = true) :
    (get_fernet w none).2 = w := by
  unfold get_fernet
  simp only [Option.getD_none, get_key_path_default, h, installation_check]
  cases hc : w.cryptoAvailable
  · simp
  · cases hk : lookupA w.keyFiles KEY_FILE <;> simp [hk]

theorem snd_ite {α β : Type} (c : Prop) [Decidable c] (x y : α × β) :
    (if c then x else y).2 = if c then x.2 else y.2 := by
  split <;> rfl

theorem fst_ite {α β : Type} (c : Prop) [Decidable c] (x y : α × β) :
    (if c then x else y).1 = if c then x.1 else y.1 := by
  split <;> rfl

theorem is_db_corrupted_world (w : World) (q : VPath) :
    (is_db_corrupted w q).2 = w ∨
      (is_db_corrupted w q).2 = setDb w DB_FILE emptyDb := by
  cases h : lookupA w.dbs DB_FILE
  · right; simp [is_db_corrupted, sqlite_connect, h]
  · left; simp [is_db_corrupted, sqlite_connect, h]

/-- `check_vault` either leaves the world unchanged or (only when the
default database file is absent) materialises an empty clean `DB_FILE`
via the `sqlite3.connect` inside `is_db_corrupted`. -/
theorem check_vault_world (w : World) (p : Option VPath) :
    (check_vault w p).2 = w ∨
      (check_vault w p).2 = setDb w DB_FILE emptyDb := by
  simp only [check_vault]
  split
  · exact Or.inl rfl
  split
  · exact Or.inl rfl
  split
  · exact is_db_corrupted_world w (p.getD DB_FILE)
  split
  · exact is_db_corrupted_world w (p.getD DB_FILE)
  next hkey =>
    have h : fileExists ((is_db_corrupted w (p.getD DB_FILE)).2) KEY_FILE
        = true := by simpa using hkey
    rw [get_fernet_stable _ h]
    simp only [snd_ite, ite_self]
    exact is_db_corrupted_world w (p.getD DB_FILE)

/-- When the default database file is present, `check_vault` is pure. -/
theorem check_vault_stable (w : World) (p : Option VPath) (d : DBFile)
    (hd : lookupA w.dbs DB_FILE = some d) : (check_vault w p).2 = w := by
  simp only [check_vault, is_db_corrupted_eq w _ d hd]
  split
  · rfl
  split
  · rfl
  split
  · rfl
  split
  · rfl
  next hkey =>
    have h : fileExists w KEY_FILE = true := by simpa using hkey
    rw [get_fernet_stable w h]
    simp only [snd_ite, ite_self]

theorem check_vault_backups (w : World) (p : Option VPath) :
    ((check_vault w p).2).backups = w.backups := by
  rcases check_vault_world w p with h | h <;> simp [h, setDb]

theorem check_vault_keyFiles (w : World) (p : Option VPath) :
    ((check_vault w p).2).keyFiles = w.keyFiles := by
  rcases check_vault_world w p with h | h <;> simp [h, setDb]

/-- A vault whose default database is present and scan-clean is never
reported invalid: only `DIR_MISSING`, `DB_MISSING` and `DB_CORRUPTED`
carry `is_valid = False`. -/
theorem check_vault_valid (w : World) (p : Option VPath) (d : DBFile)
    (hd : lookupA w.dbs DB_FILE = some d) (hint : d.integrity_ok = true)
    (hdir : APP_DIR ∈ w.dirs)
    (hex : fileExists w (p.getD DB_FILE) = true) :
    ((check_vault w p).1).is_valid = true := by
  simp only [check_vault, is_db_corrupted_eq w _ d hd, hint, hex, hdir]
  simp only [fst_ite, apply_ite VaultStatus.is_valid]
  simp

/-! ### The health-status observations and the spec-side precedence -/

/-- The result of the page-consistency scan the code actually performs:
`PRAGMA integrity_check` on the default database (a missing default
database is materialised empty, hence clean). -/
def integrityScanClean (w : World) : Bool :=
  match lookupA w.dbs DB_FILE with
  | some d => d.integrity_ok
  | none => true

/-- Whether `get_fernet()` yields a cipher once the default key file
exists: the cryptography package imports and the key file reads back. -/
def cipherAvailable (w : World) : Bool :=
  w.cryptoAvailable && (lookupA w.keyFiles KEY_FILE).isSome

/-- Whether the permission checks of `check_vault` emit warnings. -/
def permissionWarnings (w : World) (db_p : VPath) : Bool :=
  w.posix && (!_is_600 w db_p || !_is_600 w KEY_FILE)

/-- Modelled from the spec (§3): the ordered, first-match health
precedence `DIR_MISSING → DB_MISSING → DB_CORRUPTED → KEY_MISSING →
HEALTHY_WITH_WARNINGS → HEALTHY`, stated over the individual checks as
flat observations of the filesystem state. -/
def healthPrecedence (w : World) (db_path : Option VPath) : VaultCode :=
  let db_p := db_path.getD DB_FILE
  if APP_DIR ∉ w.dirs then .DIR_MISSING
  else if !fileExists w db_p then .DB_MISSING
  else if !integrityScanClean w then .DB_CORRUPTED
  else if !fileExists w KEY_FILE then .KEY_MISSING
  else if !cipherAvailable w then .KEY_MISSING
  else if permissionWarnings w db_p then .HEALTHY_WITH_RW_WARNINGS
  else .HEALTHY

theorem get_fernet_default_isNone (w : World)
    (h : fileExists w KEY_FILE = true) :
    ((get_fernet w none).1).isNone = !cipherAvailable w := by
  unfold get_fernet cipherAvailable installation_check
  simp only [Option.getD_none, get_key_path_default, h]
  cases hc : w.cryptoAvailable
  · simp
  · cases hk : lookupA w.keyFiles KEY_FILE <;> simp [hk]

theorem warnList_ne_nil (w : World) (q : VPath) :
    (((if w.posix ∧ !_is_600 w q then ["vault.db permissions are not 600"]
        else [])
      ++ (if w.posix ∧ !_is_600 w KEY_FILE then
        [".key permissions are not 600"] else [])) ≠ [])
    ↔ permissionWarnings w q = true := by
  by_cases hp : w.posix = true <;> by_cases h1 : _is_600 w q <;>
    by_cases h2 : _is_600 w KEY_FILE <;>
      simp [permissionWarnings, hp, h1, h2]

theorem fileExists_setDb_ne (w : World) (p q : VPath) (d : DBFile)
    (h : p ≠ q) : fileExists (setDb w p d) q = fileExists w q := by
  simp [fileExists, setDb, lookupA_updateA_ne w.dbs q p d h]

theorem cipherAvailable_setDb (w : World) (p : VPath) (d : DBFile) :
    cipherAvailable (setDb w p d) = cipherAvailable w := rfl

theorem is600_setDb (w : World) (p : VPath) (d : DBFile) (q : VPath) :
    _is_600 (setDb w p d) q = _is_600 w q := rfl

theorem posix_setDb (w : World) (p : VPath) (d : DBFile) :
    (setDb w p d).posix = w.posix := rfl

theorem permissionWarnings_setDb (w : World) (p : VPath) (d : DBFile)
    (q : VPath) : permissionWarnings (setDb w p d) q = permissionWarnings w q :=
  rfl

/-- C3: for every filesystem state and every vault path, `check_vault`
returns the first matching status in the fixed precedence
`DIR_MISSING → DB_MISSING → DB_CORRUPTED → KEY_MISSING →
HEALTHY_WITH_WARNINGS → HEALTHY`; in particular, whenever the integrity
scan the code performs is not clean (and the directory and database
exist, so no earlier state matches first) the status is `DB_CORRUPTED`,
and no later key or permission check can make a corrupted vault report
healthy. -/
theorem c3_check_vault_precedence (w : World) (dbp : Option VPath) :
    ((check_vault w dbp).1).health_code = healthPrecedence w dbp := by
  by_cases h1 : APP_DIR ∉ w.dirs
  · simp [check_vault, healthPrecedence, h1]
  by_cases h2 : (!fileExists w (dbp.getD DB_FILE)) = true
  · simp [check_vault, healthPrecedence, h1, h2]
  cases h : lookupA w.dbs DB_FILE with
  | some d =>
    have hcorr := is_db_corrupted_eq w (dbp.getD DB_FILE) d h
    have hscan : integrityScanClean w = d.integrity_ok := by
      simp [integrityScanClean, h]
    by_cases h3 : (!d.integrity_ok) = true
    · simp [check_vault, healthPrecedence, h1, h2, hcorr, hscan, h3]
    by_cases h4 : (!fileExists w KEY_FILE) = true
    · simp [check_vault, healthPrecedence, h1, h2, hcorr, hscan, h3, h4]
    have hkf : fileExists w KEY_FILE = true := by simpa using h4
    have hstab := get_fernet_stable w hkf
    have hnone := get_fernet_default_isNone w hkf
    by_cases h5 : (!cipherAvailable w) = true
    · simp [check_vault, healthPrecedence, h1, h2, hcorr, hscan, h3, h4,
        hstab, hnone, h5]
    · by_cases hp : w.posix = true <;>
        by_cases ha : _is_600 w (dbp.getD DB_FILE) = true <;>
          by_cases hb : _is_600 w KEY_FILE = true <;>
            simp [check_vault, healthPrecedence, h1, h2, hcorr, hscan, h3,
              h4, hstab, hnone, h5, permissionWarnings, hp, ha, hb]
  | none =>
    have hcorr : is_db_corrupted w (dbp.getD DB_FILE)
        = (false, setDb w DB_FILE emptyDb) := by
      simp [is_db_corrupted, sqlite_connect, h, emptyDb]
    have hscan : integrityScanClean w = true := by
      simp [integrityScanClean, h]
    have hkf : fileExists (setDb w DB_FILE emptyDb) KEY_FILE
        = fileExists w KEY_FILE :=
      fileExists_setDb_ne w DB_FILE KEY_FILE emptyDb (by decide)
    by_cases h4 : (!fileExists w KEY_FILE) = true
    · simp [check_vault, healthPrecedence, h1, h2, hcorr, hscan, hkf, h4]
    have hkt : fileExists (setDb w DB_FILE emptyDb) KEY_FILE = true := by
      rw [hkf]; simpa using h4
    have hstab := get_fernet_stable _ hkt
    have hnone := get_fernet_default_isNone _ hkt
    by_cases h5 : (!cipherAvailable w) = true
    · simp [check_vault, healthPrecedence, h1, h2, hcorr, hscan, hkf, h4,
        hstab, hnone, cipherAvailable_setDb, h5]
    · by_cases hp : w.posix = true <;>
        by_cases ha : _is_600 w (dbp.getD DB_FILE) = true <;>
          by_cases hb : _is_600 w KEY_FILE = true <;>
            simp [check_vault, healthPrecedence, h1, h2, hcorr, hscan, hkf,
              h4, hstab, hnone, cipherAvailable_setDb, h5, is600_setDb,
              posix_setDb, permissionWarnings, hp, ha, hb]


/-! ### Frame lemmas for the rotation pipeline -/

/-- Whether a `rotate_key` result reports success. -/
def rotationSucceeded : Except PyErr RotateResult → Bool
  | .ok (s, _, _) => s
  | .error _ => false

theorem addDir_dbs (w : World) (p : VPath) : (addDir w p).dbs = w.dbs := by
  unfold addDir; split <;> rfl

theorem addDir_keyFiles (w : World) (p : VPath) :
    (addDir w p).keyFiles = w.keyFiles := by
  unfold addDir; split <;> rfl

theorem addDir_backups (w : World) (p : VPath) :
    (addDir w p).backups = w.backups := by
  unfold addDir; split <;> rfl

theorem addDir_copyOk (w : World) (p : VPath) :
    (addDir w p).copyOk = w.copyOk := by
  unfold addDir; split <;> rfl

theorem ensure_secure_dbs (w : World) (p : VPath) :
    ((ensure_secure_permissions w p).2).dbs = w.dbs := by
  unfold ensure_secure_permissions; split <;> rfl

theorem ensure_secure_keyFiles (w : World) (p : VPath) :
    ((ensure_secure_permissions w p).2).keyFiles = w.keyFiles := by
  unfold ensure_secure_permissions; split <;> rfl

theorem ensure_secure_backups (w : World) (p : VPath) :
    ((ensure_secure_permissions w p).2).backups = w.backups := by
  unfold ensure_secure_permissions; split <;> rfl

theorem secure_chmod_dbs (w : World) (p : VPath) :
    (secure_chmod w p).dbs = w.dbs := by
  unfold secure_chmod; split <;> rfl

theorem secure_chmod_keyFiles (w : World) (p : VPath) :
    (secure_chmod w p).keyFiles = w.keyFiles := by
  unfold secure_chmod; split <;> rfl

theorem secure_chmod_backups (w : World) (p : VPath) :
    (secure_chmod w p).backups = w.backups := by
  unfold secure_chmod; split <;> rfl

theorem get_fernet_dbs (w : World) (p : Option VPath) :
    ((get_fernet w p).2).dbs = w.dbs := by
  simp only [get_fernet]
  split
  · rfl
  split
  · split
    · rw [ensure_secure_dbs]
    · rfl
  · split <;> rfl

/-- `backup_vault` never changes database files or key files. -/
theorem backup_vault_dbs (w : World) (dbp : Option VPath) (suf : String)
    (ts : Bool) (dest : Option VPath) :
    ((backup_vault w dbp suf ts dest).2).dbs = w.dbs := by
  simp only [backup_vault, get_backup_path]
  split
  · rfl
  split
  · split
    · rw [secure_chmod_dbs]
      exact addDir_dbs w _
    · exact addDir_dbs w _
  · exact addDir_dbs w _

theorem backup_vault_keyFiles (w : World) (dbp : Option VPath) (suf : String)
    (ts : Bool) (dest : Option VPath) :
    ((backup_vault w dbp suf ts dest).2).keyFiles = w.keyFiles := by
  simp only [backup_vault, get_backup_path]
  split
  · rfl
  split
  · split
    · rw [secure_chmod_keyFiles]
      exact addDir_keyFiles w _
    · exact addDir_keyFiles w _
  · exact addDir_keyFiles w _


theorem get_fernet_backups (w : World) (p : Option VPath) :
    ((get_fernet w p).2).backups = w.backups := by
  simp only [get_fernet]
  split
  · rfl
  split
  · split
    · rw [ensure_secure_backups]
    · rfl
  · split <;> rfl

/-- `DworshakSecret.get` never touches backup files. -/
theorem get_world_backups (w : World) (p : VPath) (s i : String) (fl : Bool)
    (fer : Option Fernet) :
    ((DworshakSecret.get w p s i fl fer).2).backups = w.backups := by
  have h1 : ((check_vault w (some p)).2).backups = w.backups :=
    check_vault_backups w (some p)
  have h2 : ((sqlite_connect (check_vault w (some p)).2 p).2).backups
      = w.backups := by
    rw [sqlite_connect_backups]; exact h1
  simp only [DworshakSecret.get, DworshakSecret._get_fernet]
  repeat' split
  all_goals first
    | exact h1
    | exact h2

/-- With no explicit cipher, `DworshakSecret.get` can never return a
decrypted plaintext: every path through it yields the `None` sentinel or
raises (`_get_fernet` raises `TypeError` before any decryption). -/
theorem get_none_no_plain (w : World) (p : VPath) (s i : String) (fl : Bool)
    (x : String) :
    (DworshakSecret.get w p s i fl none).1 ≠ .ok (some x) := by
  simp only [DworshakSecret.get, DworshakSecret._get_fernet]
  repeat' split
  all_goals simp

/-- The world a loop outcome carries. -/
def LoopOut.world : LoopOut → World
  | .retEarly _ w => w
  | .raised _ _ w => w
  | .done _ w => w

theorem rotateLoop_backups (dry : Bool) (creds : List (String × String)) :
    ∀ (w : World) (acc : List String),
      ((rotateLoop dry w creds acc).world).backups = w.backups := by
  induction creds with
  | nil => intro w acc; rfl
  | cons c rest ih =>
    intro w acc
    obtain ⟨s, i⟩ := c
    have hb : ((DworshakSecret.get w DB_FILE s i false none).2).backups
        = w.backups := get_world_backups w DB_FILE s i false none
    simp only [rotateLoop, get_secret]
    cases hg : (DworshakSecret.get w DB_FILE s i false none).1 with
    | error e => simp [hg, LoopOut.world, hb]
    | ok o =>
      cases o with
      | none => simp [hg, LoopOut.world, hb]
      | some x =>
        simp only [hg]
        split
        · rw [ih]; exact hb
        · simp [LoopOut.world, hb]

theorem finishRotation_backups (dry : Bool) (kp : VPath) (nk : Key)
    (bi : String) (out : LoopOut) :
    ((finishRotation dry kp nk bi out).2).backups = out.world.backups := by
  cases out with
  | retEarly res w => rfl
  | raised e aff w => cases e <;> rfl
  | done aff w =>
    simp only [finishRotation]
    split
    · rfl
    · rw [ensure_secure_backups]
      rfl

/-- The re-encryption pass can never complete successfully on a
non-empty credential list: its first step either returns early with a
failure or raises. -/
theorem finish_cons_fails (dry : Bool) (kp : VPath) (nk : Key) (bi : String)
    (w : World) (s i : String) (rest : List (String × String))
    (acc : List String) :
    rotationSucceeded
      (finishRotation dry kp nk bi (rotateLoop dry w ((s, i) :: rest) acc)).1
      = false := by
  simp only [rotateLoop, get_secret]
  cases hg : (DworshakSecret.get w DB_FILE s i false none).1 with
  | error e =>
    simp only [hg]
    cases e <;> simp [finishRotation, rotationSucceeded]
  | ok o =>
    cases o with
    | none => simp [hg, finishRotation, rotationSucceeded]
    | some x => exact absurd hg (get_none_no_plain w DB_FILE s i false x)

theorem findCred_append_of_no_match (l : List (String × String × Token))
    (a b : String) (t : Token)
    (h : ∀ c ∈ l, ¬(c.1 = a ∧ c.2.1 = b)) :
    findCred (l ++ [(a, b, t)]) a b = some t := by
  induction l with
  | nil => simp [findCred]
  | cons c rest ih =>
    obtain ⟨s, i, tok⟩ := c
    have hc := h (s, i, tok) (List.mem_cons_self _ _)
    simp only [List.cons_append, findCred]
    rw [if_neg]
    · exact ih (fun c hm => h c (List.mem_cons_of_mem _ hm))
    · exact hc

/-- After an `INSERT OR REPLACE`, the lookup of the upserted key yields
exactly the new record. -/
theorem findCred_upsert (cs : List (String × String × Token))
    (a b : String) (t : Token) :
    findCred (upsertCred cs a b t) a b = some t := by
  unfold upsertCred
  apply findCred_append_of_no_match
  intro c hm
  have hp := List.of_mem_filter hm
  simp only [Bool.not_eq_eq_eq_not, Bool.not_true, Bool.and_eq_false_imp,
    beq_iff_eq] at hp
  intro hcon
  obtain ⟨hc1, hc2⟩ := hcon
  simp [hc1, hc2] at hp


/-! ### Concrete vault states used by the claim instances -/

/-- A schema-current default database holding one credential encrypted
under key 7. -/
def mainDb : DBFile := ⟨2, true, [("github", "token", ⟨7, "abc123"⟩)], true⟩

/-- A schema-current database with no credentials. -/
def emptyCredDb : DBFile := ⟨2, true, [], true⟩

/-- A database whose integrity scan is not clean. -/
def corruptDb : DBFile := ⟨2, true, [], false⟩

/-- A second, distinct database content for a custom vault. -/
def otherDb : DBFile := ⟨2, true, [("svc", "it", ⟨9, "zzz"⟩)], true⟩

/-- A custom vault database path inside the default app directory. -/
def sidePath : VPath := APP_DIR ++ ["side.db"]

/-- A healthy default vault. -/
def healthyWorld : World :=
  { dirs := [APP_DIR], dbs := [(DB_FILE, mainDb)],
    keyFiles := [(KEY_FILE, 7)], backups := [],
    modes := [(DB_FILE, 384), (KEY_FILE, 384)],
    cryptoAvailable := true, posix := true, rng := 100, now := 5,
    copyOk := true }

/-! ### The claims -/

/-- C1: the concrete scenario cannot run: `DworshakSecret.set` with no
explicit cipher resolves `self._get_fernet()`, which calls
`security.get_fernet(key_path=...)` although `get_fernet`'s only
parameter is named `db_path` — Python raises `TypeError` before anything
is stored, for every world and every vault path (in particular on the
healthy default vault of the claimed scenario), instead of storing
`"abc123"` and round-tripping it. -/
theorem c1_set_raises_typeerror :
    (∀ (w : World) (p : VPath) (service item value : String),
      DworshakSecret.set w p service item value none
        = (.error (.typeError
            "get_fernet() got an unexpected keyword argument key_path"), w))
    ∧ ((check_vault healthyWorld none).1).health_code = VaultCode.HEALTHY :=
  ⟨fun _ _ _ _ _ => rfl, by decide⟩

/-- A single `set` with an explicit cipher is an unconditional upsert of
the `(service, item)` record. -/
theorem set_upsert_eq (w : World) (d : DBFile) (p : VPath) (a b v : String)
    (k : Key) (hd : lookupA w.dbs p = some d)
    (htab : d.hasCredTable = true) :
    DworshakSecret.set w p a b v (some (.single k))
      = (.ok (), setDb w p
          { d with credentials := upsertCred d.credentials a b ⟨k, v⟩ }) := by
  simp [DworshakSecret.set, DworshakSecret.setWithFernet, sqlite_connect,
    hd, htab, Fernet.encrypt]

def c6FirstSet : Except PyErr Unit × World :=
  DworshakSecret.set healthyWorld DB_FILE "a" "b" "v1" (some (.single 7))

def c6SecondSet : Except PyErr Unit × World :=
  DworshakSecret.set c6FirstSet.2 DB_FILE "a" "b" "v2" (some (.single 7))

/-- C6 counterexample: `DworshakSecret.set` has no `overwrite` parameter
and no `AlreadyExists` failure mode: on a healthy default vault, a second
`set` for the same `(service, item)` succeeds and replaces the value, so
`get` returns the second value `"v2"`, not `"v1"` as the claim states. -/
theorem c6_counterexample :
    c6SecondSet.1 = .ok ()
    ∧ (DworshakSecret.get c6SecondSet.2 DB_FILE "a" "b" false
        (some (.single 7))).1 = .ok (some "v2")
    ∧ "v2" ≠ "v1" :=
  ⟨rfl, rfl, by decide⟩

/-- C7: `import_records` rejects any document whose metadata lacks a
truthy `decrypted` flag — it returns the `None` sentinel and applies no
change whatsoever to the world. -/
theorem c7_import_rejects_undecrypted (w : World) (doc : ExportDoc)
    (dbp : Option VPath) (ow : Bool)
    (h : doc.metadata.decrypted = none ∨ doc.metadata.decrypted = some false) :
    import_records w doc dbp ow = (.ok none, w) := by
  rcases h with h | h <;>
    simp [import_records, _validate_import_meta, pyTruthy, h]

def undecryptedDoc : ExportDoc :=
  ⟨⟨some false⟩, [⟨some "github", some "token", some "xyz"⟩]⟩

theorem c7_witness :
    import_records healthyWorld undecryptedDoc none true
      = (.ok none, healthyWorld) :=
  c7_import_rejects_undecrypted healthyWorld undecryptedDoc none true
    (Or.inr rfl)

/-- C9: the corruption test `check_vault` performs ignores the path it is
given — `is_db_corrupted` always scans the default `DB_FILE` — so for an
existing custom vault file the `DB_CORRUPTED` verdict is equivalent to
the DEFAULT database being corrupt, independently of the custom file's
own integrity bit. -/
theorem c9_corruption_checks_default_db (w : World) (p : VPath) (d : DBFile)
    (hdir : APP_DIR ∈ w.dirs) (hex : fileExists w p = true)
    (hd : lookupA w.dbs DB_FILE = some d) :
    (((check_vault w (some p)).1).health_code = VaultCode.DB_CORRUPTED
      ↔ d.integrity_ok = false) := by
  have h1 : ¬ APP_DIR ∉ w.dirs := by simpa using hdir
  have hcorr := is_db_corrupted_eq w p d hd
  cases hio : d.integrity_ok
  · simp [check_vault, hcorr, h1, hex, hio]
  · by_cases h4 : (!fileExists w KEY_FILE) = true
    · simp [check_vault, hcorr, h1, hex, hio, h4]
    · have hkf : fileExists w KEY_FILE = true := by simpa using h4
      have hstab := get_fernet_stable w hkf
      by_cases h5 : ((get_fernet w none).1).isNone = true
      · simp [check_vault, hcorr, h1, hex, hio, h4, h5, hstab,
          Option.isNone_iff_eq_none]
      · simp [check_vault, hcorr, h1, hex, hio, h4, h5, hstab,
          Option.isNone_iff_eq_none, fst_ite,
          apply_ite VaultStatus.health_code]
        split <;> simp

def corruptDefaultWorld : World :=
  { dirs := [APP_DIR], dbs := [(DB_FILE, corruptDb), (sidePath, otherDb)],
    keyFiles := [(KEY_FILE, 7)], backups := [],
    modes := [(DB_FILE, 384), (KEY_FILE, 384), (sidePath, 384)],
    cryptoAvailable := true, posix := true, rng := 100, now := 5,
    copyOk := true }

theorem c9_witness :
    (((check_vault corruptDefaultWorld (some sidePath)).1).health_code
      = VaultCode.DB_CORRUPTED ↔ corruptDb.integrity_ok = false) :=
  c9_corruption_checks_default_db corruptDefaultWorld sidePath corruptDb
    (by decide) (by decide) (by decide)


/-- C6 (amended): `set` is an unconditional upsert with no
`AlreadyExists` failure mode: on a healthy default vault both `set`
calls succeed and the second replaces the first value, so `get` returns
`v2`. -/
theorem c6_set_always_upserts (w : World) (d : DBFile) (k : Key)
    (a b v1 v2 : String)
    (hdir : APP_DIR ∈ w.dirs)
    (hd : lookupA w.dbs DB_FILE = some d)
    (htab : d.hasCredTable = true)
    (hint : d.integrity_ok = true) :
    (DworshakSecret.set w DB_FILE a b v1 (some (.single k))).1 = .ok ()
    ∧ (DworshakSecret.set
        (DworshakSecret.set w DB_FILE a b v1 (some (.single k))).2
        DB_FILE a b v2 (some (.single k))).1 = .ok ()
    ∧ (DworshakSecret.get
        (DworshakSecret.set
          (DworshakSecret.set w DB_FILE a b v1 (some (.single k))).2
          DB_FILE a b v2 (some (.single k))).2
        DB_FILE a b false (some (.single k))).1 = .ok (some v2) := by
  have h1 := set_upsert_eq w d DB_FILE a b v1 k hd htab
  generalize hD1 :
    ({ d with credentials := upsertCred d.credentials a b ⟨k, v1⟩ } : DBFile)
      = D1 at h1
  have htab1 : D1.hasCredTable = true := by rw [← hD1]; exact htab
  have hint1 : D1.integrity_ok = true := by rw [← hD1]; exact hint
  have hl1 : lookupA (setDb w DB_FILE D1).dbs DB_FILE = some D1 := by
    simp [setDb, lookupA_updateA_self]
  have h2 := set_upsert_eq (setDb w DB_FILE D1) D1 DB_FILE a b v2 k hl1 htab1
  generalize hD2 :
    ({ D1 with credentials := upsertCred D1.credentials a b ⟨k, v2⟩ } : DBFile)
      = D2 at h2
  have htab2 : D2.hasCredTable = true := by rw [← hD2]; exact htab1
  have hint2 : D2.integrity_ok = true := by rw [← hD2]; exact hint1
  have hcred2 : D2.credentials = upsertCred D1.credentials a b ⟨k, v2⟩ := by
    rw [← hD2]
  have hl2 : lookupA (setDb (setDb w DB_FILE D1) DB_FILE D2).dbs DB_FILE
      = some D2 := by
    simp [setDb, lookupA_updateA_self]
  have hdir2 : APP_DIR ∈ (setDb (setDb w DB_FILE D1) DB_FILE D2).dirs := hdir
  have hex2 : fileExists (setDb (setDb w DB_FILE D1) DB_FILE D2)
      ((some DB_FILE).getD DB_FILE) = true := by
    simp [fileExists, hl2]
  have hvalid := check_vault_valid _ (some DB_FILE) D2 hl2 hint2 hdir2 hex2
  have hstab := check_vault_stable _ (some DB_FILE) D2 hl2
  refine ⟨by rw [h1], by rw [h1, h2], ?_⟩
  rw [h1, h2]
  simp [DworshakSecret.get, hvalid, hstab, sqlite_connect, hl2, htab2,
    hcred2, findCred_upsert, Fernet.decrypt]

theorem c6_witness :
    c6SecondSet.1 = .ok ()
    ∧ (DworshakSecret.get c6SecondSet.2 DB_FILE "a" "b" false
        (some (.single 7))).1 = .ok (some "v2") := by
  have h := c6_set_always_upserts healthyWorld mainDb 7 "a" "b" "v1" "v2"
    (by decide) (by decide) rfl rfl
  exact ⟨h.2.1, h.2.2⟩

/-- C5: on a vault persisted at schema version 1 (greater than 0, below
the tool version 2), `initialize_vault` raises `TypeError` — the call
`_dont_run_migrations(existing_version)` passes one argument to a
zero-parameter function — instead of returning the version-mismatch
failure response; no migration runs and the persisted database (its
schema version included) is left unchanged. -/
theorem c5_version_mismatch_raises (w : World) (d : DBFile)
    (hd : lookupA w.dbs DB_FILE = some d) (hv : d.userVersion = 1) :
    (initialize_vault w).1 = .error (.typeError
        "_dont_run_migrations() takes 0 positional arguments but 1 was given")
    ∧ lookupA ((initialize_vault w).2).dbs DB_FILE = some d := by
  have hdbs1 : (addDir w APP_DIR).dbs = w.dbs := addDir_dbs w APP_DIR
  have hdbs2 : ((get_fernet (addDir w APP_DIR) none).2).dbs = w.dbs := by
    rw [get_fernet_dbs]; exact hdbs1
  have hconn : sqlite_connect ((get_fernet (addDir w APP_DIR) none).2) DB_FILE
      = (d, (get_fernet (addDir w APP_DIR) none).2) := by
    apply sqlite_connect_of_some
    rw [hdbs2]; exact hd
  constructor
  · simp [initialize_vault, hconn, hv, CURRENT_TOOL_SCHEMA_VERSION]
  · simp [initialize_vault, hconn, hv, CURRENT_TOOL_SCHEMA_VERSION,
      hdbs2, hd]

def v1Db : DBFile := ⟨1, true, [], true⟩

def v1World : World :=
  { dirs := [APP_DIR], dbs := [(DB_FILE, v1Db)],
    keyFiles := [(KEY_FILE, 7)], backups := [],
    modes := [(DB_FILE, 384), (KEY_FILE, 384)],
    cryptoAvailable := true, posix := true, rng := 100, now := 5,
    copyOk := true }

theorem c5_witness :
    (initialize_vault v1World).1 = .error (.typeError
      "_dont_run_migrations() takes 0 positional arguments but 1 was given")
    ∧ lookupA ((initialize_vault v1World).2).dbs DB_FILE = some v1Db :=
  c5_version_mismatch_raises v1World v1Db (by decide) rfl

theorem mem_addDir_self (w : World) (p : VPath) : p ∈ (addDir w p).dirs := by
  unfold addDir
  split
  · assumption
  · exact List.mem_cons_self _ _

/-- C8: the get-cipher asymmetry.  When the default vault's key file is
missing (and the cryptography package is available, on a POSIX host),
`get_fernet()` generates a fresh key, persists it at the default key
path — creating the directory and securing the file to 0o600 — and
returns a working cipher bound to that key.  For every non-default
database path whose co-located `.key` file is missing, `get_fernet`
returns `None` and the world is left completely unchanged: no key file
is ever created. -/
theorem c8_get_fernet_asymmetry (w : World) (p : VPath) :
    (w.cryptoAvailable = true → fileExists w KEY_FILE = false →
      w.posix = true →
      ((get_fernet w none).1 = some (.single w.rng)
        ∧ lookupA ((get_fernet w none).2).keyFiles KEY_FILE = some w.rng
        ∧ APP_DIR ∈ ((get_fernet w none).2).dirs
        ∧ _is_600 ((get_fernet w none).2) KEY_FILE = true))
    ∧ (p ≠ DB_FILE → fileExists w (p.parent.child ".key") = false →
        get_fernet w (some p) = (none, w)) := by
  constructor
  · intro hc hk hp
    have hgen : get_fernet w none
        = (some (.single w.rng),
          (ensure_secure_permissions
            { w with rng := w.rng + 1,
                     dirs := (addDir w KEY_FILE.parent).dirs,
                     keyFiles := updateA w.keyFiles KEY_FILE w.rng }
            KEY_FILE).2) := by
      simp [get_fernet, installation_check, hc, hk, get_key_path_default]
    have hfe : fileExists
        { w with rng := w.rng + 1,
                 dirs := (addDir w KEY_FILE.parent).dirs,
                 keyFiles := updateA w.keyFiles KEY_FILE w.rng }
        KEY_FILE = true := by
      simp [fileExists, lookupA_updateA_self]
    have hx : (!w.posix || !fileExists
        { w with rng := w.rng + 1,
                 dirs := (addDir w KEY_FILE.parent).dirs,
                 keyFiles := updateA w.keyFiles KEY_FILE w.rng }
        KEY_FILE) = false := by
      refine Bool.or_eq_false_iff.mpr ⟨?_, ?_⟩
      · simp [hp]
      · simp [hfe]
    have hens : (ensure_secure_permissions
        { w with rng := w.rng + 1,
                 dirs := (addDir w KEY_FILE.parent).dirs,
                 keyFiles := updateA w.keyFiles KEY_FILE w.rng } KEY_FILE).2
        = { w with rng := w.rng + 1,
                   dirs := (addDir w KEY_FILE.parent).dirs,
                   keyFiles := updateA w.keyFiles KEY_FILE w.rng,
                   modes := updateA w.modes KEY_FILE 384 } := by
      simp only [ensure_secure_permissions, hx]
      simp
    rw [hgen, hens]
    refine ⟨rfl, ?_, ?_, ?_⟩
    · simp [lookupA_updateA_self]
    · show APP_DIR ∈ (addDir w KEY_FILE.parent).dirs
      have hpar : KEY_FILE.parent = APP_DIR := by decide
      rw [hpar]
      exact mem_addDir_self w APP_DIR
    · simp [_is_600, _get_rw_mode, lookupA_updateA_self]
  · intro hne hmiss
    have hkp : get_key_path_for_db (some p) = p.parent.child ".key" := by
      simp [get_key_path_for_db, hne]
    cases hc : w.cryptoAvailable
    · simp [get_fernet, installation_check, hc]
    · simp [get_fernet, installation_check, hc, hkp, hmiss, hne]


/-- With a non-empty credential list in the default database, the
key/re-encryption phases of `rotate_key` always fail: the first loop
iteration either reads the `None` sentinel (early failure return) or
raises before any record is rewritten. -/
theorem rotateFrom_fails_nonempty (w₂ : World) (kp : VPath) (dry : Bool)
    (bi : String) (d : DBFile)
    (hd2 : lookupA w₂.dbs DB_FILE = some d)
    (htab : d.hasCredTable = true) (hne : d.credentials ≠ []) :
    rotationSucceeded (rotateFrom w₂ kp dry bi).1 = false := by
  obtain ⟨c0, rest0, hcc⟩ : ∃ c0 rest0, d.credentials = c0 :: rest0 := by
    cases hcc : d.credentials with
    | nil => exact absurd hcc hne
    | cons x xs => exact ⟨x, xs, rfl⟩
  obtain ⟨s0, i0, t0⟩ := c0
  unfold rotateFrom
  cases hload : load_current_key w₂ (some kp) with
  | error e => simp [hload, rotationSucceeded]
  | ok old =>
    simp only [hload]
    cases hcr : w₂.cryptoAvailable
    · simp [generate_new_key, hcr, rotationSucceeded]
    · have hgen : generate_new_key w₂
          = (.ok w₂.rng, { w₂ with rng := w₂.rng + 1 }) := by
        simp [generate_new_key, hcr]
      have hlist : list_credentials { w₂ with rng := w₂.rng + 1 }
          = ((((s0, i0, t0) :: rest0).map (fun c => (c.1, c.2.1))),
            { w₂ with rng := w₂.rng + 1 }) := by
        simp [list_credentials, DworshakSecret.list, sqlite_connect, hd2,
          htab, hcc]
      simp [hgen, hlist, finish_cons_fails]

/-- C2: no `rotate_key` call — dry-run or not, with or without backup —
can succeed while the default database holds any credential.  With
`auto_backup` the call dies even earlier (the `backup_vault` call is
missing its required `db_path` argument); without it, the re-encryption
pass aborts on its first record, because `get_secret` raises `TypeError`
in `_get_fernet` (and `store_secret` would likewise reject the `fernet`
keyword it is passed).  The only successful rotations are the degenerate
empty-vault ones, which re-encrypt nothing, so the claimed rotation
correctness is unrealizable as stated. -/
theorem c2_rotation_never_succeeds (w : World) (dbp : Option VPath)
    (dry ab : Bool) (d : DBFile)
    (hd : lookupA w.dbs DB_FILE = some d) (htab : d.hasCredTable = true)
    (hne : d.credentials ≠ []) :
    rotationSucceeded (rotate_key w dbp dry ab "pre-key-rotation").1
      = false := by
  have hstab := check_vault_stable w (some (dbp.getD DB_FILE)) d hd
  simp only [rotate_key, hstab]
  split
  · rfl
  · cases hab : ab
    · simp only [Bool.false_eq_true, if_false]
      exact rotateFrom_fails_nonempty w _ dry _ d hd htab hne
    · simp [rotationSucceeded]

theorem c2_witness :
    rotationSucceeded
      (rotate_key healthyWorld none false false "pre-key-rotation").1
      = false :=
  c2_rotation_never_succeeds healthyWorld none false false mainDb
    (by decide) rfl (by decide)


theorem list_backups (w : World) (p : VPath) :
    ((DworshakSecret.list w p).2).backups = w.backups := by
  simp only [DworshakSecret.list]
  split <;> exact sqlite_connect_backups w p

theorem rotateFrom_backups (w₂ : World) (kp : VPath) (dry : Bool)
    (bi : String) :
    ((rotateFrom w₂ kp dry bi).2).backups = w₂.backups := by
  unfold rotateFrom
  cases hload : load_current_key w₂ (some kp) with
  | error e => simp [hload]
  | ok old =>
    simp only [hload]
    cases hcr : w₂.cryptoAvailable
    · simp [generate_new_key, hcr]
    · have hgen : generate_new_key w₂
          = (.ok w₂.rng, { w₂ with rng := w₂.rng + 1 }) := by
        simp [generate_new_key, hcr]
      have hlb : ((list_credentials { w₂ with rng := w₂.rng + 1 }).2).backups
          = w₂.backups := list_backups _ DB_FILE
      simp only [hgen]
      split
      · exact hlb
      · rw [finishRotation_backups, rotateLoop_backups]
        exact hlb

/-- A successful `backup_vault` copies the looked-up database content to
the generated (timestamped) backup path. -/
theorem backup_vault_records (w : World) (dbp : Option VPath) (suf : String)
    (ts : Bool) (dest : Option VPath) (d : DBFile)
    (hd : lookupA w.dbs (dbp.getD DB_FILE) = some d)
    (hcopy : w.copyOk = true) :
    (backup_vault w dbp suf ts dest).1
      = some ((dest.getD APP_DIR).child (get_vault_backup_filename w suf ts))
    ∧ lookupA ((backup_vault w dbp suf ts dest).2).backups
        ((dest.getD APP_DIR).child (get_vault_backup_filename w suf ts))
        = some d := by
  have hex : fileExists w (dbp.getD DB_FILE) = true :=
    fileExists_of_db w _ d hd
  constructor <;>
    simp [backup_vault, get_backup_path, hex, hd, addDir_dbs, addDir_copyOk,
      hcopy, secure_chmod_backups, lookupA_updateA_self, addDir_backups]

/-- C4: with automatic backup enabled (the default), the documented
backup-first behaviour never happens: `rotate_key`'s call
`backup_vault(extra_suffix=..., include_timestamp=True)` omits the
`db_path` argument, which `vault.backup_vault` declares with no default
value, so on every healthy vault the rotation raises `TypeError` at the
backup call — outside any handler — instead of first copying the
database file to a timestamped backup location.  Nothing is copied, the
documented abort result (`False, "Automatic backup failed — rotation
aborted", None`) is never returned, and the filesystem is left
completely unchanged. -/
theorem c4_backup_phase_raises (w : World) (dbp : Option VPath)
    (dry : Bool) (suf : String) (d : DBFile)
    (hd : lookupA w.dbs DB_FILE = some d)
    (hvalid : ((check_vault w (some (dbp.getD DB_FILE))).1).is_valid
      = true) :
    rotate_key w dbp dry true suf
      = (.error (.typeError
          "backup_vault() missing 1 required positional argument: db_path"),
        w) := by
  have hstab := check_vault_stable w (some (dbp.getD DB_FILE)) d hd
  simp [rotate_key, hstab, hvalid]

theorem c4_witness :
    rotate_key healthyWorld none false true "pre-key-rotation"
      = (.error (.typeError
          "backup_vault() missing 1 required positional argument: db_path"),
        healthyWorld) :=
  c4_backup_phase_raises healthyWorld none false "pre-key-rotation" mainDb
    (by decide) (by decide)

/-- An empty default credential table makes the key/re-encryption phases
return the early success while persisting nothing: the freshly generated
key (`w₂.rng`) is discarded and only the entropy counter advances. -/
theorem rotateFrom_empty (w₂ : World) (kp : VPath) (dry : Bool)
    (bi : String) (d : DBFile) (k : Key)
    (hd2 : lookupA w₂.dbs DB_FILE = some d)
    (hempty : d.credentials = [])
    (hkey : lookupA w₂.keyFiles (get_key_path_for_db (some kp)) = some k)
    (hcrypto : w₂.cryptoAvailable = true) :
    rotateFrom w₂ kp dry bi
      = (.ok (true, "No credentials to rotate. " ++ bi, some []),
        { w₂ with rng := w₂.rng + 1 }) := by
  have hload : load_current_key w₂ (some kp) = .ok k := by
    simp [load_current_key, hkey]
  have hgen : generate_new_key w₂
      = (.ok w₂.rng, { w₂ with rng := w₂.rng + 1 }) := by
    simp [generate_new_key, hcrypto]
  have hlist : list_credentials { w₂ with rng := w₂.rng + 1 }
      = ([], { w₂ with rng := w₂.rng + 1 }) := by
    cases htab : d.hasCredTable <;>
      simp [list_credentials, DworshakSecret.list, sqlite_connect, hd2,
        htab, hempty]
  simp [rotateFrom, hload, hgen, hlist]

/-- C10 (amended): whenever the DEFAULT database's credential table is
empty — `rotate_key` enumerates credentials from the default database
regardless of the `db_path` it was given — a non-dry-run rotation with
`auto_backup` disabled on a healthy vault returns success
("No credentials to rotate") while every key file's bytes and every
database file are left unchanged: the freshly generated key is never
persisted, so the master key is not actually replaced. -/
theorem c10_empty_default_rotation (w : World) (dbp : Option VPath)
    (d : DBFile) (k : Key)
    (hd : lookupA w.dbs DB_FILE = some d)
    (hempty : d.credentials = [])
    (hvalid : ((check_vault w (some (dbp.getD DB_FILE))).1).is_valid
      = true)
    (hkey : lookupA w.keyFiles
        (get_key_path_for_db
          (some (get_key_path_for_db (some (dbp.getD DB_FILE)))))
        = some k)
    (hcrypto : w.cryptoAvailable = true) :
    (rotate_key w dbp false false "pre-key-rotation").1
      = .ok (true, "No credentials to rotate. " ++ "No backup performed",
        some [])
    ∧ ((rotate_key w dbp false false "pre-key-rotation").2).keyFiles
        = w.keyFiles
    ∧ ((rotate_key w dbp false false "pre-key-rotation").2).dbs
        = w.dbs := by
  have hstab := check_vault_stable w (some (dbp.getD DB_FILE)) d hd
  have hv2 : ¬(!((check_vault w (some (dbp.getD DB_FILE))).1).is_valid
      = true) := by simp [hvalid]
  have hrot := rotateFrom_empty w
    (get_key_path_for_db (some (dbp.getD DB_FILE))) false
    "No backup performed" d k hd hempty hkey hcrypto
  refine ⟨?_, ?_, ?_⟩ <;> simp [rotate_key, hstab, hv2, hvalid, hrot]

def sideEmptyWorld : World :=
  { dirs := [APP_DIR], dbs := [(DB_FILE, mainDb), (sidePath, emptyCredDb)],
    keyFiles := [(KEY_FILE, 7)], backups := [],
    modes := [(DB_FILE, 384), (KEY_FILE, 384), (sidePath, 384)],
    cryptoAvailable := true, posix := true, rng := 100, now := 5,
    copyOk := true }

/-- C10 counterexample: the healthy custom vault at `sidePath` holds zero
credential records, yet a non-dry-run `rotate_key` on it with
`auto_backup` disabled does NOT return success — `list_credentials()`
reads the (non-empty) default database and the re-encryption pass then
aborts — refuting the claim for non-default vaults. -/
theorem c10_counterexample :
    ((check_vault sideEmptyWorld (some sidePath)).1).is_valid = true
    ∧ lookupA sideEmptyWorld.dbs sidePath = some emptyCredDb
    ∧ emptyCredDb.credentials = []
    ∧ rotationSucceeded
        (rotate_key sideEmptyWorld (some sidePath) false false
          "pre-key-rotation").1 = false :=
  ⟨by decide, by decide, rfl, by decide⟩

def emptyVaultWorld : World :=
  { dirs := [APP_DIR], dbs := [(DB_FILE, emptyCredDb)],
    keyFiles := [(KEY_FILE, 7)], backups := [],
    modes := [(DB_FILE, 384), (KEY_FILE, 384)],
    cryptoAvailable := true, posix := true, rng := 100, now := 5,
    copyOk := true }

theorem c10_witness :
    (rotate_key emptyVaultWorld none false false "pre-key-rotation").1
      = .ok (true, "No credentials to rotate. " ++ "No backup performed",
        some [])
    ∧ ((rotate_key emptyVaultWorld none false false
        "pre-key-rotation").2).keyFiles = emptyVaultWorld.keyFiles
    ∧ ((rotate_key emptyVaultWorld none false false
        "pre-key-rotation").2).dbs = emptyVaultWorld.dbs :=
  c10_empty_default_rotation emptyVaultWorld none emptyCredDb 7 (by decide)
    rfl (by decide) (by decide) rfl


def keylessWorld : World :=
  { dirs := [APP_DIR], dbs := [(DB_FILE, emptyCredDb)], keyFiles := [],
    backups := [], modes := [(DB_FILE, 384)],
    cryptoAvailable := true, posix := true, rng := 42, now := 5,
    copyOk := true }

def customPath : VPath := ["tmp", "custom.db"]

theorem c8_witness :
    ((get_fernet keylessWorld none).1 = some (.single 42)
      ∧ lookupA ((get_fernet keylessWorld none).2).keyFiles KEY_FILE
          = some 42
      ∧ APP_DIR ∈ ((get_fernet keylessWorld none).2).dirs
      ∧ _is_600 ((get_fernet keylessWorld none).2) KEY_FILE = true)
    ∧ get_fernet keylessWorld (some customPath) = (none, keylessWorld) := by
  have h := c8_get_fernet_asymmetry keylessWorld customPath
  exact ⟨h.1 (by decide) (by decide) (by decide),
    h.2 (by decide) (by decide)⟩

end Dworshak
